import Mathlib

/-!
Shallow embedding of `gonb`'s comms layer:
  * `internal/comms/comms.go` — the `State` ("CommChannel") liveness state
    machine: `InstallJavascript`, `HandleOpen`, `HandleMsg`, `Close`,
    `SendHeartbeatAndWait`, the heartbeat latch;
  * the `jpyexec` named-pipe file — `openPipeReader` (two goroutines racing
    on the FIFO), `pollNamedPipeReader` (decode loop), `dispatchDisplayData`,
    `dispatchInputRequest`, `reportCellError`.

Go `map[string]any` JSON-ish values become `JVal`; time is in milliseconds
(`Nat`); external calls (`msg.Publish`, `msg.Reply`,
`kernel.PublishUpdateDisplayData`, ...) are modelled by outcome parameters
(`Option GoError`) supplied by the environment, and their invocations are
recorded as an effect trace.
-/

/-- Errors returned by the external `kernel.Message` capability; content
is irrelevant, only presence (`some`) vs absence (`none`). -/
abbrev GoError := String

/-- Model of Go `any` values produced by JSON parsing (`map[string]any`). -/
inductive JVal where
  | jstr : String → JVal
  | jbool : Bool → JVal
  | jmap : List (String × JVal) → JVal
  | jother : JVal

/-- Association-list lookup, modelling Go `values[part]`. -/
def jlookup : List (String × JVal) → String → Option JVal
  | [], _ => none
  | (k, v) :: rest, key => if k = key then some v else jlookup rest key

/-- `strings.Split(key, sep)` for a one-character separator, over the
character list. -/
def splitChars (sep : Char) : List Char → List (List Char)
  | [] => [[]]
  | c :: rest =>
    let r := splitChars sep rest
    if c = sep then [] :: r
    else
      match r with
      | h :: t => (c :: h) :: t
      | [] => [[c]]

/-- `strings.Split(key, "/")`. -/
def splitOnSlash (s : String) : List String :=
  (splitChars '/' s.toList).map List.asString

/-- `getFromJson[string]` from `comms.go`: walks the `"/"`-separated path
through nested `map[string]any` values; the last component must be a
string.  Errors (missing key, non-map intermediate, non-string leaf)
collapse to `none` — callers only test `err != nil`. -/
def getFromJsonString (values : List (String × JVal)) (key : String) : Option String :=
  go values (splitOnSlash key)
where
  go : List (String × JVal) → List String → Option String
    | _, [] => none
    | vs, [part] =>
      match jlookup vs part with
      | some (.jstr s) => some s
      | _ => none
    | vs, part :: rest =>
      match jlookup vs part with
      | some (.jmap m) => go m rest
      | _ => none

/-- A `kernel.Message` as seen by this package: only
`msg.ComposedMsg().Content.(map[string]any)` is inspected (`none` models a
content that is not a `map[string]any`). -/
structure Message where
  content : Option (List (String × JVal))

/-- Protocol-private heartbeat request address (`HeartbeatPingAddress`). -/
def HeartbeatPingAddress : String := "#heartbeat/ping"

/-- Protocol-private heartbeat reply address (`HeartbeatPongAddress`). -/
def HeartbeatPongAddress : String := "#heartbeat/pong"

/-- `HeartbeatTimeout = 500 * time.Millisecond`, in ms. -/
def HeartbeatTimeout : Nat := 500

/-- `HeartbeatRequestThreshold = 1 * time.Second`, in ms. -/
def HeartbeatRequestThreshold : Nat := 1000

/-- `comms.State`.  The latch is modelled by its identity (`Option Nat`):
`some id` while a heartbeat probe is outstanding.  Resolution of the latch
is handled by the probe-event semantics below. -/
structure CommState where
  IsWebSocketInstalled : Bool
  TransientDisplayId : String
  Opened : Bool
  CommId : String
  LastMsgTime : Nat
  HeartbeatPongLatch : Option Nat
  deriving Repr, DecidableEq

/-- `comms.New()`: zero state. -/
def CommState.new : CommState :=
  { IsWebSocketInstalled := false
    TransientDisplayId := ""
    Opened := false
    CommId := ""
    LastMsgTime := 0
    HeartbeatPongLatch := none }

/-- Observable calls to the external capabilities, in order. -/
inductive Effect where
  /-- `kernel.PublishUpdateDisplayData` delivering the bootstrap
  `<script>` under a fresh transient display id. -/
  | publishJavascript (transientId : String)
  /-- `kernel.PublishUpdateDisplayData` erasing the transient block. -/
  | eraseJavascript (transientId : String)
  /-- `sendLocked`: `msg.Publish("comm_msg", {comm_id: ..., data: ...})`. -/
  | publishCommMsg (commId : String) (data : List (String × JVal))
  /-- `closeLocked`: `msg.Reply("comm_close", {comm_id: ...})`. -/
  | replyCommClose (commId : String)
  /-- the goroutine started in `sendHeartbeatPingLocked`:
  `time.Sleep(timeout); latch.Trigger(false)`. -/
  | startTimer (latchId : Nat) (timeout : Nat)

/-- `sendLocked`: builds `{comm_id: s.CommId, data: data}` and publishes a
`comm_msg`.  Returns the effect and the publish outcome chosen by the
environment. -/
def sendLocked (s : CommState) (data : List (String × JVal)) : Effect :=
  .publishCommMsg s.CommId data

/-- Result of a CommChannel entry point: new state, emitted effects, and
returned error. -/
structure CommResult where
  state : CommState
  effects : List Effect
  err : Option GoError

/-- `closeLocked`: no-op when not opened; otherwise replies `comm_close`
with the current `CommId`, then unconditionally clears `CommId`, `Opened`,
`IsWebSocketInstalled`, and returns the reply's error. -/
def closeLocked (s : CommState) (replyErr : Option GoError) : CommResult :=
  if !s.Opened then
    { state := s, effects := [], err := none }
  else
    { state := { s with CommId := "", Opened := false, IsWebSocketInstalled := false }
      effects := [.replyCommClose s.CommId]
      err := replyErr }

/-- `State.Close`. -/
def CommState.Close (s : CommState) (replyErr : Option GoError) : CommResult :=
  closeLocked s replyErr

/-- `HandleMsg` emits no external calls, but may trigger the outstanding
heartbeat latch (`handleHeartbeatPongLocked`). -/
inductive MsgAction where
  | triggerLatch (latchId : Nat) (value : Bool)
  deriving DecidableEq

/-- Result of `HandleMsg`: new state, latch triggers, and the returned
error (every branch of the source returns `nil`). -/
structure MsgResult where
  state : CommState
  actions : List MsgAction
  err : Option GoError
  deriving DecidableEq

/-- `handleHeartbeatPongLocked`: triggers the latch with `true` if one is
outstanding, else logs an orphan pong; never an error. -/
def handleHeartbeatPongLocked (s : CommState) : MsgResult :=
  match s.HeartbeatPongLatch with
  | some lid => { state := s, actions := [.triggerLatch lid true], err := none }
  | none => { state := s, actions := [], err := none }

/-- `State.HandleMsg` at wall-clock time `now`: drops (no state change) on
malformed content, missing `comm_id`, or a `comm_id` different from the
stored one; otherwise stamps `LastMsgTime`, parses `data/address`, and
routes both heartbeat addresses to the pong handler. -/
def CommState.HandleMsg (s : CommState) (now : Nat) (msg : Message) : MsgResult :=
  match msg.content with
  | none => { state := s, actions := [], err := none }
  | some content =>
    match getFromJsonString content "comm_id" with
    | none => { state := s, actions := [], err := none }
    | some commId =>
      if commId ≠ s.CommId then
        { state := s, actions := [], err := none }
      else
        let s := { s with LastMsgTime := now }
        match getFromJsonString content "data/address" with
        | none => { state := s, actions := [], err := none }
        | some address =>
          if address = HeartbeatPongAddress then
            handleHeartbeatPongLocked s
          else if address = HeartbeatPingAddress then
            handleHeartbeatPongLocked s
          else
            { state := s, actions := [], err := none }

/-- `State.HandleOpen` at time `now`.  `closeReplyErr`, `eraseErr`,
`ackErr` are the environment's outcomes for the three external calls it
may make (old-channel `comm_close` reply, erase of the transient
javascript block, `comm_open_ack` publish). -/
def CommState.HandleOpen (s : CommState) (now : Nat) (msg : Message)
    (closeReplyErr eraseErr ackErr : Option GoError) : CommResult :=
  match msg.content with
  | none => { state := s, effects := [], err := none }
  | some content =>
    match getFromJsonString content "target_name" with
    | none => { state := s, effects := [], err := none }
    | some targetName =>
      if targetName ≠ "gonb_comm" then
        { state := s, effects := [], err := none }
      else
        match getFromJsonString content "comm_id" with
        | none => { state := s, effects := [], err := none }
        | some commId =>
          let closeStep : CommResult :=
            if s.Opened then closeLocked s closeReplyErr
            else { state := s, effects := [], err := none }
          match closeStep.err with
          | some e => { closeStep with err := some e }
          | none =>
            let s := closeStep.state
            -- Erase javascript; a failure is logged and dropped (err = nil).
            let fx := closeStep.effects ++ [.eraseJavascript s.TransientDisplayId]
            -- Mark comms opened.
            let s := { s with CommId := commId, Opened := true, LastMsgTime := now }
            { state := s
              effects := fx ++ [sendLocked s [("comm_open_ack", .jbool true)]]
              err := ackErr }

/-! ## Heartbeat probe semantics

`sendHeartbeatPingLocked` releases the lock and blocks on
`latch.Wait()`.  What happens while it waits is a list of `ProbeEvent`s:
inbound `comm_msg`s processed by `HandleMsg` on other goroutines, and
firings of timeout goroutines (`time.Sleep(timeout); l.Trigger(false)`).
A `common.Latch` is single-shot: `Wait` returns the value of the first
`Trigger`; later triggers are discarded. -/

/-- An event occurring while the probe waits with the lock released. -/
inductive ProbeEvent where
  /-- an inbound `comm_msg` handled by `HandleMsg` at time `now`. -/
  | inbound (now : Nat) (msg : Message)
  /-- the timeout goroutine of the latch with identity `latchId` fires. -/
  | timerFire (latchId : Nat)

/-- The trigger (if any) that an event delivers to the latch with identity
`lid`, in state `s`: a timer fire delivers `false` to its own latch; an
inbound message delivers `true` exactly when `HandleMsg` routes it to
`handleHeartbeatPongLocked` with that latch outstanding. -/
def eventTrigger (s : CommState) (lid : Nat) : ProbeEvent → Option Bool
  | .timerFire l => if l = lid then some false else none
  | .inbound now msg =>
    if (s.HandleMsg now msg).actions = [.triggerLatch lid true] then some true else none

/-- State evolution by one probe event (timer fires do not touch the
state; inbound messages evolve it through `HandleMsg`). -/
def evStep (s : CommState) : ProbeEvent → CommState
  | .timerFire _ => s
  | .inbound now msg => (s.HandleMsg now msg).state

/-- State after a list of probe events. -/
def evolveState (s : CommState) (evs : List ProbeEvent) : CommState :=
  evs.foldl evStep s

/-- The value of the first trigger delivered to latch `lid` along `evs`
(the value `latch.Wait()` returns); `none` if no event triggers it (the
wait has not yet returned). -/
def firstTrig (lid : Nat) : CommState → List ProbeEvent → Option Bool
  | _, [] => none
  | s, e :: rest =>
    match eventTrigger s lid e with
    | some v => some v
    | none => firstTrig lid (evStep s e) rest

/-- The data of the heartbeat ping message:
`{address: HeartbeatPingAddress, value: true}`. -/
def heartbeatPingData : List (String × JVal) :=
  [("address", .jstr HeartbeatPingAddress), ("value", .jbool true)]

/-- Result of `sendHeartbeatPingLocked` / `SendHeartbeatAndWait`:
`resolved = some v` means `latch.Wait()` returned `v` (and the call
returned); `resolved = none` means no trigger has occurred yet and the
call is still blocked (`state` is then the in-flight state). -/
structure ProbeResult where
  state : CommState
  effects : List Effect
  resolved : Option Bool
  err : Option GoError

/-- `sendHeartbeatPingLocked(msg, timeout)` with fresh latch identity
`newLatchId`, ping-publish outcome `sendErr`, and `evs` the events
occurring while the lock is released:

* if a latch is already outstanding it is reused — no ping is sent, no
  timer is started, and `timeout`/`newLatchId`/`sendErr` are not used;
* otherwise the ping is published (returning early on failure), the
  latch is created and its timeout goroutine started;
* the caller then waits; the latch resolves to the first trigger in
  `evs`; on reacquiring the lock the latch field is cleared if it still
  holds this same latch. -/
def sendHeartbeatPingLocked (s : CommState) (timeout : Nat) (newLatchId : Nat)
    (sendErr : Option GoError) (evs : List ProbeEvent) : ProbeResult :=
  match s.HeartbeatPongLatch with
  | some lid =>
    -- Reuse the outstanding probe.
    let res := firstTrig lid s evs
    let sEnd := evolveState s evs
    match res with
    | none => { state := sEnd, effects := [], resolved := none, err := none }
    | some v =>
      let sEnd :=
        if sEnd.HeartbeatPongLatch = some lid then { sEnd with HeartbeatPongLatch := none }
        else sEnd
      { state := sEnd, effects := [], resolved := some v, err := none }
  | none =>
    let pingFx := sendLocked s heartbeatPingData
    match sendErr with
    | some e =>
      -- `failed to send heartbeat ping message`: return (false, err).
      { state := s, effects := [pingFx], resolved := some false, err := some e }
    | none =>
      let s1 := { s with HeartbeatPongLatch := some newLatchId }
      let fx := [pingFx, .startTimer newLatchId timeout]
      let res := firstTrig newLatchId s1 evs
      let sEnd := evolveState s1 evs
      match res with
      | none => { state := sEnd, effects := fx, resolved := none, err := none }
      | some v =>
        let sEnd :=
          if sEnd.HeartbeatPongLatch = some newLatchId then { sEnd with HeartbeatPongLatch := none }
          else sEnd
        { state := sEnd, effects := fx, resolved := some v, err := none }

/-- `State.SendHeartbeatAndWait`: lock, `sendHeartbeatPingLocked`,
unlock. -/
def CommState.SendHeartbeatAndWait (s : CommState) (timeout : Nat) (newLatchId : Nat)
    (sendErr : Option GoError) (evs : List ProbeEvent) : ProbeResult :=
  sendHeartbeatPingLocked s timeout newLatchId sendErr evs

/-- The tail of `InstallJavascript`: regenerate the transient display id,
publish the bootstrap javascript (`fx` are effects already emitted), and
mark installed only if the publish succeeded; the publish outcome is
returned. -/
def installJSPublish (s : CommState) (fx : List Effect) (newTransientId : String)
    (pubErr : Option GoError) : CommResult × Bool :=
  let s := { s with TransientDisplayId := newTransientId }
  let fx := fx ++ [Effect.publishJavascript newTransientId]
  match pubErr with
  | none => ({ state := { s with IsWebSocketInstalled := true }, effects := fx, err := none }, true)
  | some e => ({ state := s, effects := fx, err := some e }, true)

/-- `State.InstallJavascript` ("EnsureInstalled") at time `now`.
`newTransientId` models `gonbui.UniqueID()`; `newLatchId`, `hbSendErr`,
`hbEvs` feed a heartbeat probe if one is issued; `pubErr` is the outcome
of the bootstrap `PublishUpdateDisplayData`.  The `Bool` is `true` when
the call returned (`false`: still blocked inside the heartbeat wait; the
`CommResult` then holds the in-flight state). -/
def CommState.InstallJavascript (s : CommState) (now : Nat) (newTransientId : String)
    (newLatchId : Nat) (hbSendErr : Option GoError) (hbEvs : List ProbeEvent)
    (pubErr : Option GoError) : CommResult × Bool :=
  if s.IsWebSocketInstalled then
    if now - s.LastMsgTime ≤ HeartbeatRequestThreshold then
      -- Already installed and fresh enough: nothing to do.
      ({ state := s, effects := [], err := none }, true)
    else if s.CommId ≠ "" ∧ s.Opened then
      -- Confirm installation with a heartbeat.
      let pr := sendHeartbeatPingLocked s HeartbeatTimeout newLatchId hbSendErr hbEvs
      match pr.err with
      | some e => ({ state := pr.state, effects := pr.effects, err := some e }, true)
      | none =>
        match pr.resolved with
        | none => ({ state := pr.state, effects := pr.effects, err := none }, false)
        | some true => ({ state := pr.state, effects := pr.effects, err := none }, true)
        | some false =>
          -- Stale connection: reset and fall through to re-install.
          installJSPublish
            { pr.state with CommId := "", IsWebSocketInstalled := false, Opened := false }
            pr.effects newTransientId pubErr
    else
      -- Stale and no open channel: reset and fall through to re-install.
      installJSPublish { s with CommId := "", IsWebSocketInstalled := false, Opened := false }
        [] newTransientId pubErr
  else
    installJSPublish s [] newTransientId pubErr

/-! ## `jpyexec` named-pipe decode loop -/

/-- Generic association-list lookup (Go map indexing, `m[key]`). -/
def alookup {α : Type} : List (String × α) → String → Option α
  | [], _ => none
  | (k, v) :: rest, key => if k = key then some v else alookup rest key

/-- `protocol.InputRequest`. -/
structure InputRequest where
  Prompt : String
  Password : Bool
  deriving Repr, DecidableEq

/-- A Go `any` payload stored in `DisplayData.Data`: either a
`*protocol.InputRequest` (the only type the decode loop casts to) or any
other content, opaque here. -/
inductive PipeValue where
  | inputRequest (req : InputRequest)
  | raw (payload : String)
  deriving Repr, DecidableEq

/-- `protocol.MIMEJupyterInput`, the marker MIME key for input requests.
The constant lives in the external `gonbui/protocol` package; only its
identity matters here. -/
def MIMEJupyterInput : String := "input/jupyter-input-request"

/-- `protocol.DisplayData`: MIME-keyed payloads, string-keyed metadata
(values opaque), and an optional display id. -/
structure DisplayData where
  Data : List (String × PipeValue)
  Metadata : List (String × String)
  DisplayID : String
  deriving Repr, DecidableEq

/-- How the decoder's stream of successfully decoded records ends.
`io.EOF`, `io.ErrClosedPipe` and `os.ErrClosed` terminate the loop
silently; any other decode error is logged
(`failed to parse message`) and also terminates the loop. -/
inductive StreamEnd where
  | eof
  | errClosedPipe
  | errClosed
  | decodeErr
  deriving Repr, DecidableEq

/-- Outward calls made by the decode loop / its dispatchers. -/
inductive PollEffect where
  /-- `dispatchDisplayData` → `kernel.PublishData` (fresh display). -/
  | publishData (record : DisplayData)
  /-- `dispatchDisplayData` → `kernel.PublishUpdateDisplayData`
  (in-place update, transient `display_id` set from the record). -/
  | publishUpdateDisplayData (record : DisplayData)
  /-- `dispatchInputRequest` → `exec.msg.PromptInput`. -/
  | promptInput (req : InputRequest)
  /-- `reportCellError` → `kernel.PublishWriteStream(..., StreamStderr, ...)`. -/
  | cellError
  deriving Repr, DecidableEq

/-- `dispatchDisplayData`: update-in-place when `DisplayID` is non-empty,
fresh display otherwise (publish failures are logged and swallowed, so no
error is returned). -/
def dispatchDisplayData (d : DisplayData) : PollEffect :=
  if d.DisplayID ≠ "" then .publishUpdateDisplayData d else .publishData d

/-- One iteration body of `pollNamedPipeReader` for a successfully
decoded record: the input-request marker routes to
`dispatchInputRequest`, a marker whose payload is not a
`*protocol.InputRequest` reports a cell error and continues, anything
else goes to `dispatchDisplayData`. -/
def pollRecordEffect (d : DisplayData) : PollEffect :=
  match alookup d.Data MIMEJupyterInput with
  | some v =>
    match v with
    | .inputRequest req => .promptInput req
    | .raw _ => .cellError
  | none => dispatchDisplayData d

/-- `pollNamedPipeReader` on a stream decoding to `records` and then
ending with `e`: the effect trace, and whether a decode error was logged
at termination (`true` only for `StreamEnd.decodeErr`; EOF and
closed-pipe ends are silent). -/
def pollNamedPipeReader : List DisplayData → StreamEnd → List PollEffect × Bool
  | [], e => ([], e = .decodeErr)
  | d :: rest, e =>
    let (fx, b) := pollNamedPipeReader rest e
    (pollRecordEffect d :: fx, b)

/-! ## `openPipeReader`: the two goroutines racing on the reader FIFO

The cleanup goroutine (waits on `doneChan`, sends a throwaway writer if
the FIFO was never opened for reading, removes the FIFO) and the reader
goroutine (blocking `os.Open`, sets `fifoOpenedForReading` under
`muFifo` — held to the end of the goroutine by `defer` — waits on
`doneChan`, closes and removes the FIFO) are modelled as two program
counters stepped by an arbitrary interleaving schedule.  A blocked or
finished step stutters.  FIFO-open rendezvous: an open-for-read completes
once some writer is at/old past its open-for-write, and vice versa. -/

/-- Program counter of the cleanup goroutine (`comms.go` pipe part,
`openPipeReader` first `go func`). -/
inductive CProc where
  | cWaitDone   -- `<-exec.doneChan`
  | cLock       -- `muFifo.Lock()`
  | cCheckFlag  -- `if !fifoOpenedForReading`
  | cThrowaway  -- `os.OpenFile(readerPath, O_WRONLY); w.Close()`
  | cUnlock     -- `muFifo.Unlock()`
  | cRemove     -- `os.Remove(readerPath)`
  | cDone
  deriving Repr, DecidableEq

/-- Program counter of the reader goroutine (second `go func`). -/
inductive RProc where
  | rCheckDone  -- `if exec.isDone { return }`
  | rOpen       -- `os.Open(readerPath)` (blocks until a writer attaches)
  | rLock       -- `muFifo.Lock()`
  | rSetFlag    -- `fifoOpenedForReading = true` (+ start decode loop)
  | rWaitDone   -- `<-exec.doneChan`
  | rClose      -- `exec.pipeReader.Close()`
  | rRemove     -- `os.Remove(exec.namedPipeReaderPath)`
  | rRet        -- goroutine returns; deferred `muFifo.Unlock()` runs
  | rDoneEarly  -- returned via the `isDone` early exit (no removal)
  | rDoneFull   -- returned after close+remove
  deriving Repr, DecidableEq

/-- Shared world of the two goroutines plus instrumentation
(`removeCount`: number of `os.Remove(readerPath)` calls executed;
`removesBeforeDone`: how many of them ran while `doneChan` was not yet
closed). -/
structure PipeWorld where
  done : Bool                -- `doneChan` closed
  childAttached : Bool       -- the executed program is at/past opening the FIFO for writing
  readerOpened : Bool        -- the reader's `os.Open` has completed
  flag : Bool                -- `fifoOpenedForReading`
  muFree : Bool              -- `muFifo` not held
  isDoneEarly : Bool         -- value of `exec.isDone` read by the reader goroutine
  removeCount : Nat
  removesBeforeDone : Nat
  c : CProc
  r : RProc
  deriving Repr, DecidableEq

/-- Initial world: `exec.isDone` as scenario parameter, everything else
at rest. -/
def pipeInit (isDoneEarly : Bool) : PipeWorld :=
  { done := false, childAttached := false, readerOpened := false, flag := false
    muFree := true, isDoneEarly := isDoneEarly
    removeCount := 0, removesBeforeDone := 0
    c := .cWaitDone, r := .rCheckDone }

/-- A scheduling decision: step one goroutine, close `doneChan`, or let
the executed program attach to the FIFO's write end. -/
inductive PMove where
  | stepC
  | stepR
  | fireDone      -- the executed program exits: `close(exec.doneChan)`
  | childAttach   -- the executed program opens the FIFO for writing
  deriving Repr, DecidableEq

/-- Bookkeeping for one `os.Remove(readerPath)` call. -/
def recordRemove (w : PipeWorld) : PipeWorld :=
  { w with removeCount := w.removeCount + 1
           removesBeforeDone := w.removesBeforeDone + (if w.done then 0 else 1) }

/-- One step of the cleanup goroutine (stutters when blocked or done). -/
def cStep (w : PipeWorld) : PipeWorld :=
  match w.c with
  | .cWaitDone => if w.done then { w with c := .cLock } else w
  | .cLock => if w.muFree then { w with muFree := false, c := .cCheckFlag } else w
  | .cCheckFlag => { w with c := if w.flag then .cUnlock else .cThrowaway }
  | .cThrowaway =>
    -- open-for-write completes once the read end is (being) opened
    if w.readerOpened then { w with c := .cUnlock } else w
  | .cUnlock => { w with muFree := true, c := .cRemove }
  | .cRemove => { recordRemove w with c := .cDone }
  | .cDone => w

/-- One step of the reader goroutine (stutters when blocked or done). -/
def rStep (w : PipeWorld) : PipeWorld :=
  match w.r with
  | .rCheckDone => { w with r := if w.isDoneEarly then .rDoneEarly else .rOpen }
  | .rOpen =>
    -- open-for-read completes once some writer attaches: the child, or
    -- the cleanup goroutine's throwaway writer
    if w.childAttached ∨ w.c = .cThrowaway then
      { w with readerOpened := true, r := .rLock }
    else w
  | .rLock => if w.muFree then { w with muFree := false, r := .rSetFlag } else w
  | .rSetFlag => { w with flag := true, r := .rWaitDone }
  | .rWaitDone => if w.done then { w with r := .rClose } else w
  | .rClose => { w with r := .rRemove }
  | .rRemove => { recordRemove w with r := .rRet }
  | .rRet => { w with muFree := true, r := .rDoneFull }
  | .rDoneEarly => w
  | .rDoneFull => w

/-- One scheduled step of the whole system. -/
def pStep (w : PipeWorld) : PMove → PipeWorld
  | .stepC => cStep w
  | .stepR => rStep w
  | .fireDone => { w with done := true }
  | .childAttach => { w with childAttached := true }

/-- Run a schedule. -/
def pRun (w : PipeWorld) (sched : List PMove) : PipeWorld :=
  sched.foldl pStep w

/-! ## Operation traces over the CommChannel -/

/-- One public CommChannel operation together with the environmental
inputs it consumes. -/
inductive CommOp where
  | install (now : Nat) (newTransientId : String) (newLatchId : Nat)
      (hbSendErr : Option GoError) (hbEvs : List ProbeEvent) (pubErr : Option GoError)
  | openEvt (now : Nat) (msg : Message) (closeErr eraseErr ackErr : Option GoError)
  | msgEvt (now : Nat) (msg : Message)
  | closeEvt (replyErr : Option GoError)
  | heartbeat (timeout newLatchId : Nat) (sendErr : Option GoError) (evs : List ProbeEvent)

/-- The state reached by one public operation (for a still-blocked
heartbeat wait, the in-flight state). -/
def commStep (s : CommState) : CommOp → CommState
  | .install now tid lid se evs pe => (s.InstallJavascript now tid lid se evs pe).1.state
  | .openEvt now m ce ee ae => (s.HandleOpen now m ce ee ae).state
  | .msgEvt now m => (s.HandleMsg now m).state
  | .closeEvt re => (s.Close re).state
  | .heartbeat t lid se evs => (s.SendHeartbeatAndWait t lid se evs).state

/-- Run a sequence of public operations. -/
def commRun (s : CommState) (ops : List CommOp) : CommState :=
  ops.foldl commStep s

/-- The `comm_id` an open event would store on acceptance (`none` for
other operations or unparseable content). -/
def opOpenCommId : CommOp → Option String
  | .openEvt _ m _ _ _ => m.content.bind (fun c => getFromJsonString c "comm_id")
  | _ => none

/-- The spec invariant: `opened == true` implies `channelId != ""`. -/
def OpenedInv (s : CommState) : Prop := s.Opened = true → s.CommId ≠ ""

/-! ## Concrete fixtures used by witnesses and counterexamples -/

/-- A concrete fully-open state, for witnesses. -/
def openAbcState : CommState :=
  { CommState.new with Opened := true, CommId := "abc", IsWebSocketInstalled := true }

/-- A concrete open state with an outstanding heartbeat latch, for witnesses. -/
def openWithLatchState : CommState :=
  { CommState.new with CommId := "abc", Opened := true, HeartbeatPongLatch := some 7 }

/-- A concrete inbound pong message carrying a foreign `comm_id`. -/
def foreignPongContent : List (String × JVal) :=
  [("comm_id", .jstr "xyz"), ("data", .jmap [("address", .jstr "#heartbeat/pong")])]

/-- A well-formed `comm_open` content: `{target_name: "gonb_comm", comm_id: "abc"}`. -/
def openContentAbc : List (String × JVal) :=
  [("target_name", .jstr "gonb_comm"), ("comm_id", .jstr "abc")]

/-- A schedule in which the child attaches, the reader goroutine runs to
completion after `doneChan` closes, and then the cleanup goroutine runs
to completion: both goroutines execute `os.Remove(readerPath)`. -/
def doubleRemoveSchedule : List PMove :=
  [.childAttach, .stepR, .stepR, .stepR, .stepR, .fireDone,
   .stepR, .stepR, .stepR, .stepR, .stepC, .stepC, .stepC, .stepC, .stepC]

/-- A pong message matching `openAbcState`'s channel. -/
def abcPongContent : List (String × JVal) :=
  [("comm_id", .jstr "abc"), ("data", .jmap [("address", .jstr "#heartbeat/pong")])]

/-- An open event whose `comm_id` field is present but empty. -/
def openContentEmpty : List (String × JVal) :=
  [("target_name", .jstr "gonb_comm"), ("comm_id", .jstr "")]

/-- Contribution of the cleanup goroutine to the count of executed
`os.Remove(readerPath)` calls: exactly one once it has passed its remove
instruction. -/
def cContrib (c : CProc) : Nat := if c = .cDone then 1 else 0

/-- Contribution of the reader goroutine: one once it has passed its
remove instruction (the early-exit terminal `rDoneEarly` contributes
nothing). -/
def rContrib (r : RProc) : Nat :=
  if r = .rRet ∨ r = .rDoneFull then 1 else 0

/-- Inductive invariant of the pipe-teardown interleaving: the removal
count is exactly the sum of the two goroutines' contributions, no
removal has executed before `doneChan` closed, and each goroutine is
past its `<-doneChan` receive only if `done` has fired. -/
def pInv (w : PipeWorld) : Prop :=
  w.removeCount = cContrib w.c + rContrib w.r ∧
  w.removesBeforeDone = 0 ∧
  (w.c ≠ .cWaitDone → w.done = true) ∧
  ((w.r = .rClose ∨ w.r = .rRemove ∨ w.r = .rRet ∨ w.r = .rDoneFull) → w.done = true)

/-- Whether `HandleMsg` routes a message to the pong handler: well-formed
content whose `comm_id` equals the stored one and whose `data/address` is
the pong-address or the ping-address. -/
def routesToPong (s : CommState) (m : Message) : Bool :=
  match m.content with
  | none => false
  | some c =>
    match getFromJsonString c "comm_id" with
    | none => false
    | some cid =>
      if cid ≠ s.CommId then false
      else
        match getFromJsonString c "data/address" with
        | none => false
        | some a => a = HeartbeatPongAddress || a = HeartbeatPingAddress

/-- Number of bootstrap-javascript publishes in an effect trace. -/
def countPublishJs : List Effect → Nat
  | [] => 0
  | .publishJavascript _ :: rest => countPublishJs rest + 1
  | _ :: rest => countPublishJs rest

/-! ## Theorems -/

section Claims

/-- C10: For every open state, `Close` clears `channelId`, `opened`, and
`installed` even when sending the `comm_close` notification fails: the
send error is returned to the caller, but the state is never left open
after `Close` — the state change always takes effect. -/
theorem close_clears_even_on_error (s : CommState) (replyErr : Option GoError)
    (h : s.Opened = true) :
    s.Close replyErr =
      { state := { s with CommId := "", Opened := false, IsWebSocketInstalled := false }
        effects := [.replyCommClose s.CommId]
        err := replyErr } := by
  simp [CommState.Close, closeLocked, h]

theorem close_clears_even_on_error_witness :
    openAbcState.Opened = true ∧
    openAbcState.Close (some "send failed") =
      { state := { openAbcState with CommId := "", Opened := false, IsWebSocketInstalled := false }
        effects := [.replyCommClose "abc"]
        err := some "send failed" } :=
  ⟨rfl, close_clears_even_on_error _ (some "send failed") rfl⟩

/-- C6: For every inbound message whose `comm_id` differs from the stored
`CommId` (whatever the payload), `HandleMsg` leaves the entire state
unchanged — in particular `LastMsgTime` is not stamped and no latch is
triggered — and returns no error. -/
theorem handleMsg_wrong_commId_noop (s : CommState) (now : Nat)
    (content : List (String × JVal)) (cid : String)
    (hcid : getFromJsonString content "comm_id" = some cid)
    (hne : cid ≠ s.CommId) :
    s.HandleMsg now ⟨some content⟩ = { state := s, actions := [], err := none } := by
  simp [CommState.HandleMsg, hcid, hne]

theorem handleMsg_wrong_commId_noop_witness :
    getFromJsonString foreignPongContent "comm_id" = some "xyz" ∧
    ("xyz" : String) ≠ openWithLatchState.CommId ∧
    openWithLatchState.HandleMsg 99 ⟨some foreignPongContent⟩ =
      { state := openWithLatchState, actions := [], err := none } :=
  ⟨rfl, by decide,
   handleMsg_wrong_commId_noop _ 99 _ "xyz" rfl (by decide)⟩

/-- C8: For every decoded record carrying the input-request marker whose
payload is not a `*protocol.InputRequest`, the decode loop reports a
cell-level error and continues: subsequent records are still processed
and the stream is not terminated. -/
theorem poll_bad_input_request_continues (d : DisplayData) (rest : List DisplayData)
    (e : StreamEnd) (x : String)
    (h : alookup d.Data MIMEJupyterInput = some (.raw x)) :
    pollNamedPipeReader (d :: rest) e =
      (PollEffect.cellError :: (pollNamedPipeReader rest e).1,
       (pollNamedPipeReader rest e).2) := by
  simp [pollNamedPipeReader, pollRecordEffect, h]

theorem poll_bad_input_request_continues_witness :
    alookup (DisplayData.mk [(MIMEJupyterInput, .raw "garbage")] [] "").Data
        MIMEJupyterInput = some (.raw "garbage") ∧
    pollNamedPipeReader
        [DisplayData.mk [(MIMEJupyterInput, .raw "garbage")] [] "",
         DisplayData.mk [("text/html", .raw "<b>hi</b>")] [] ""] .eof =
      ([PollEffect.cellError,
        PollEffect.publishData (DisplayData.mk [("text/html", .raw "<b>hi</b>")] [] "")],
       false) :=
  ⟨by decide,
   by
    rw [poll_bad_input_request_continues _ _ _ "garbage" (by decide)]
    decide⟩

/-- C7: For every stream of well-formed display records (no input-request
marker) followed by EOF, the decode loop issues exactly one display
dispatch per record — an update-in-place call when `DisplayID` is
non-empty, a fresh display call otherwise — and terminates without
surfacing an error. -/
theorem poll_display_records_eof (records : List DisplayData)
    (h : ∀ d ∈ records, alookup d.Data MIMEJupyterInput = none) :
    pollNamedPipeReader records .eof =
      (records.map fun d =>
        if d.DisplayID ≠ "" then PollEffect.publishUpdateDisplayData d
        else PollEffect.publishData d, false) ∧
    (pollNamedPipeReader records .eof).1.length = records.length := by
  have main : pollNamedPipeReader records .eof =
      (records.map fun d =>
        if d.DisplayID ≠ "" then PollEffect.publishUpdateDisplayData d
        else PollEffect.publishData d, false) := by
    induction records with
    | nil => simp [pollNamedPipeReader]
    | cons d rest ih =>
      have hd := h d (List.mem_cons_self d rest)
      have hrest := ih fun x hx => h x (List.mem_cons_of_mem d hx)
      simp [pollNamedPipeReader, pollRecordEffect, hd, hrest, dispatchDisplayData]
  exact ⟨main, by rw [main]; simp⟩

theorem poll_display_records_eof_witness :
    (∀ d ∈ [DisplayData.mk [("text/plain", .raw "a")] [] "id1",
            DisplayData.mk [("text/html", .raw "b")] [] ""],
      alookup d.Data MIMEJupyterInput = none) ∧
    pollNamedPipeReader
        [DisplayData.mk [("text/plain", .raw "a")] [] "id1",
         DisplayData.mk [("text/html", .raw "b")] [] ""] .eof =
      ([PollEffect.publishUpdateDisplayData (DisplayData.mk [("text/plain", .raw "a")] [] "id1"),
        PollEffect.publishData (DisplayData.mk [("text/html", .raw "b")] [] "")],
       false) := by
  refine ⟨by decide, ?_⟩
  have := (poll_display_records_eof
    [DisplayData.mk [("text/plain", .raw "a")] [] "id1",
     DisplayData.mk [("text/html", .raw "b")] [] ""] (by decide)).1
  rw [this]
  decide

end Claims

/-- C2 counterexample: (1) on a fresh state the ack for
`{target_name: "gonb_comm", comm_id: "abc"}` carries the data key
`comm_open_ack` — the key `open_ack` claimed by the spec is absent from
the published data; (2) if a previous channel is open and its
`comm_close` reply fails, the open is not accepted at all (`Opened`
ends `false` and the reply error is returned). -/
theorem handleOpen_ack_counterexample :
    (CommState.new.HandleOpen 5 ⟨some openContentAbc⟩ none none none).effects =
      [.eraseJavascript "", .publishCommMsg "abc" [("comm_open_ack", .jbool true)]] ∧
    jlookup [("comm_open_ack", .jbool true)] "open_ack" = none ∧
    (openAbcState.HandleOpen 5 ⟨some openContentAbc⟩ (some "reply failed") none none).state.Opened
      = false ∧
    (openAbcState.HandleOpen 5 ⟨some openContentAbc⟩ (some "reply failed") none none).err
      = some "reply failed" :=
  ⟨rfl, rfl, rfl, rfl⟩

/-- C2 (amended): For every open event whose content carries
`target_name "gonb_comm"` and a `comm_id` string `cid`, provided that a
previously-open channel's `comm_close` reply does not fail, `HandleOpen`
accepts it: `Opened := true`, the `comm_id` is stored, `LastMsgTime` is
stamped, and the last message published is the acknowledgment
`{comm_id: cid, data: {comm_open_ack: true}}` on the new channel (the
data key is `comm_open_ack`, not `open_ack`); the returned error is the
ack publish's outcome. -/
theorem handleOpen_accepts (s : CommState) (now : Nat)
    (content : List (String × JVal)) (cid : String)
    (closeErr eraseErr ackErr : Option GoError)
    (htarget : getFromJsonString content "target_name" = some "gonb_comm")
    (hcid : getFromJsonString content "comm_id" = some cid)
    (hclose : s.Opened = true → closeErr = none) :
    (s.HandleOpen now ⟨some content⟩ closeErr eraseErr ackErr).state.Opened = true ∧
    (s.HandleOpen now ⟨some content⟩ closeErr eraseErr ackErr).state.CommId = cid ∧
    (s.HandleOpen now ⟨some content⟩ closeErr eraseErr ackErr).state.LastMsgTime = now ∧
    (s.HandleOpen now ⟨some content⟩ closeErr eraseErr ackErr).err = ackErr ∧
    (s.HandleOpen now ⟨some content⟩ closeErr eraseErr ackErr).effects.getLast? =
      some (.publishCommMsg cid [("comm_open_ack", .jbool true)]) := by
  by_cases hO : s.Opened = true
  · simp [CommState.HandleOpen, closeLocked, sendLocked, htarget, hcid, hO, hclose hO]
  · simp only [Bool.not_eq_true] at hO
    simp [CommState.HandleOpen, closeLocked, sendLocked, htarget, hcid, hO]

theorem handleOpen_accepts_witness :
    getFromJsonString openContentAbc "target_name" = some "gonb_comm" ∧
    getFromJsonString openContentAbc "comm_id" = some "abc" ∧
    (CommState.new.Opened = true → (none : Option GoError) = none) ∧
    ((CommState.new.HandleOpen 5 ⟨some openContentAbc⟩ none none none).state.Opened = true ∧
     (CommState.new.HandleOpen 5 ⟨some openContentAbc⟩ none none none).state.CommId = "abc" ∧
     (CommState.new.HandleOpen 5 ⟨some openContentAbc⟩ none none none).state.LastMsgTime = 5 ∧
     (CommState.new.HandleOpen 5 ⟨some openContentAbc⟩ none none none).err = none ∧
     (CommState.new.HandleOpen 5 ⟨some openContentAbc⟩ none none none).effects.getLast? =
       some (.publishCommMsg "abc" [("comm_open_ack", .jbool true)])) :=
  ⟨rfl, rfl, fun _ => rfl,
   handleOpen_accepts CommState.new 5 openContentAbc "abc" none none none rfl rfl
     (fun _ => rfl)⟩

/-- `HandleMsg` never changes `Opened`, `CommId`, `IsWebSocketInstalled`,
`TransientDisplayId` or the latch field: it only stamps `LastMsgTime`. -/
theorem handleMsg_fields (s : CommState) (now : Nat) (m : Message) :
    (s.HandleMsg now m).state.Opened = s.Opened ∧
    (s.HandleMsg now m).state.CommId = s.CommId ∧
    (s.HandleMsg now m).state.HeartbeatPongLatch = s.HeartbeatPongLatch ∧
    (s.HandleMsg now m).state.IsWebSocketInstalled = s.IsWebSocketInstalled := by
  unfold CommState.HandleMsg handleHeartbeatPongLocked
  rcases m with ⟨_ | content⟩
  · simp
  · simp only
    rcases getFromJsonString content "comm_id" with _ | cid
    · simp
    · simp only
      by_cases h : cid ≠ s.CommId
      · simp [h]
      · simp only [h, if_false, ite_false]
        rcases getFromJsonString content "data/address" with _ | addr
        · simp [h]
        · rcases hl : s.HeartbeatPongLatch with _ | lid <;>
            by_cases h1 : addr = HeartbeatPongAddress <;>
            by_cases h2 : addr = HeartbeatPingAddress <;>
            simp [h, h1, h2, hl]

/-- Probe events never change `Opened`, `CommId` or the latch field. -/
theorem evolveState_fields (evs : List ProbeEvent) (s : CommState) :
    (evolveState s evs).Opened = s.Opened ∧
    (evolveState s evs).CommId = s.CommId ∧
    (evolveState s evs).HeartbeatPongLatch = s.HeartbeatPongLatch ∧
    (evolveState s evs).IsWebSocketInstalled = s.IsWebSocketInstalled := by
  induction evs generalizing s with
  | nil => simp [evolveState]
  | cons e rest ih =>
    have hstep : (evStep s e).Opened = s.Opened ∧
        (evStep s e).CommId = s.CommId ∧
        (evStep s e).HeartbeatPongLatch = s.HeartbeatPongLatch ∧
        (evStep s e).IsWebSocketInstalled = s.IsWebSocketInstalled := by
      cases e with
      | timerFire _ => simp [evStep]
      | inbound now m => simpa [evStep] using handleMsg_fields s now m
    have := ih (evStep s e)
    simp only [evolveState, List.foldl_cons] at *
    exact ⟨hstep.1 ▸ this.1, hstep.2.1 ▸ this.2.1,
           hstep.2.2.1 ▸ this.2.2.1, hstep.2.2.2 ▸ this.2.2.2⟩

/-- A heartbeat probe never changes `Opened`, `CommId` or
`IsWebSocketInstalled`. -/
theorem sendHeartbeat_fields (s : CommState) (t lid : Nat)
    (se : Option GoError) (evs : List ProbeEvent) :
    (sendHeartbeatPingLocked s t lid se evs).state.Opened = s.Opened ∧
    (sendHeartbeatPingLocked s t lid se evs).state.CommId = s.CommId ∧
    (sendHeartbeatPingLocked s t lid se evs).state.IsWebSocketInstalled
      = s.IsWebSocketInstalled := by
  unfold sendHeartbeatPingLocked
  rcases hl : s.HeartbeatPongLatch with _ | lid0
  · rcases se with _ | e
    · simp only
      have h1 := evolveState_fields evs { s with HeartbeatPongLatch := some lid }
      rcases hf : firstTrig lid { s with HeartbeatPongLatch := some lid } evs with _ | v
      · simp only [hf]
        exact ⟨h1.1, h1.2.1, h1.2.2.2⟩
      · simp only [hf]
        split <;> simp_all
    · simp
  · simp only
    have h1 := evolveState_fields evs s
    rcases hf : firstTrig lid0 s evs with _ | v
    · simp only [hf]
      exact ⟨h1.1, h1.2.1, h1.2.2.2⟩
    · simp only [hf]
      split <;> simp_all

/-- `installJSPublish` changes only `TransientDisplayId` and
`IsWebSocketInstalled`. -/
theorem installJSPublish_state (s : CommState) (fx : List Effect) (tid : String)
    (pe : Option GoError) :
    (installJSPublish s fx tid pe).1.state.Opened = s.Opened ∧
    (installJSPublish s fx tid pe).1.state.CommId = s.CommId ∧
    (installJSPublish s fx tid pe).1.state.LastMsgTime = s.LastMsgTime := by
  rcases pe with _ | e <;> simp [installJSPublish]

/-- Shape of the state after `InstallJavascript`: either `Opened` and
`CommId` are untouched, or the stale-connection reset ran and `Opened`
is `false`. -/
theorem installJavascript_state (s : CommState) (now : Nat) (tid : String) (lid : Nat)
    (se : Option GoError) (evs : List ProbeEvent) (pe : Option GoError) :
    ((s.InstallJavascript now tid lid se evs pe).1.state.Opened = s.Opened ∧
     (s.InstallJavascript now tid lid se evs pe).1.state.CommId = s.CommId) ∨
    (s.InstallJavascript now tid lid se evs pe).1.state.Opened = false := by
  have hhb := sendHeartbeat_fields s HeartbeatTimeout lid se evs
  unfold CommState.InstallJavascript
  by_cases hI : s.IsWebSocketInstalled = true
  · rw [if_pos hI]
    by_cases hT : now - s.LastMsgTime ≤ HeartbeatRequestThreshold
    · rw [if_pos hT]; left; exact ⟨rfl, rfl⟩
    · rw [if_neg hT]
      by_cases hCO : s.CommId ≠ "" ∧ s.Opened = true
      · rw [if_pos hCO]
        rcases he : (sendHeartbeatPingLocked s HeartbeatTimeout lid se evs).err with _ | e
        · simp only [he]
          rcases hr : (sendHeartbeatPingLocked s HeartbeatTimeout lid se evs).resolved
            with _ | v
          · simp only [hr]
            left; exact ⟨hhb.1, hhb.2.1⟩
          · rcases v with _ | _
            · -- heartbeat false: reset, re-install
              simp only [hr]
              right
              exact (installJSPublish_state _ _ tid pe).1
            · simp only [hr]
              left; exact ⟨hhb.1, hhb.2.1⟩
        · simp only [he]
          left; exact ⟨hhb.1, hhb.2.1⟩
      · rw [if_neg hCO]
        right
        exact (installJSPublish_state _ _ tid pe).1
  · rw [if_neg hI]
    left
    exact ⟨(installJSPublish_state s [] tid pe).1, (installJSPublish_state s [] tid pe).2.1⟩

/-- Shape of the state after `HandleOpen`: unchanged, closed (`Opened =
false`), or opened with the `comm_id` parsed from the event. -/
theorem handleOpen_state (s : CommState) (now : Nat) (m : Message)
    (ce ee ae : Option GoError) :
    (s.HandleOpen now m ce ee ae).state = s ∨
    (s.HandleOpen now m ce ee ae).state.Opened = false ∨
    (∃ cid, m.content.bind (fun c => getFromJsonString c "comm_id") = some cid ∧
      (s.HandleOpen now m ce ee ae).state.Opened = true ∧
      (s.HandleOpen now m ce ee ae).state.CommId = cid) := by
  unfold CommState.HandleOpen
  rcases m with ⟨_ | content⟩
  · simp
  · simp only [Option.bind_some]
    rcases getFromJsonString content "target_name" with _ | tn
    · simp
    · simp only
      by_cases htn : tn ≠ "gonb_comm"
      · simp [htn]
      · simp only [htn, ite_false, if_false]
        rcases hcid : getFromJsonString content "comm_id" with _ | cid
        · simp
        · by_cases hO : s.Opened = true
          · simp only [hO, if_true, ite_true, closeLocked, Bool.not_true]
            rcases ce with _ | e
            · simp [hO, hcid]
            · simp [hO, hcid]
          · simp only [Bool.not_eq_true] at hO
            simp [hO, closeLocked, hcid]

/-- Shape of the state after `Close`: unchanged or closed. -/
theorem close_state (s : CommState) (re : Option GoError) :
    (s.Close re).state = s ∨ (s.Close re).state.Opened = false := by
  unfold CommState.Close closeLocked
  by_cases hO : s.Opened = true <;> simp [hO]

/-- Every public operation preserves the invariant
`opened → channelId ≠ ""`, provided the operation is not an open event
carrying an empty `comm_id`. -/
theorem openedInv_step (s : CommState) (op : CommOp)
    (hInv : OpenedInv s) (hop : opOpenCommId op ≠ some "") :
    OpenedInv (commStep s op) := by
  cases op with
  | install now tid lid se evs pe =>
    simp only [commStep]
    rcases installJavascript_state s now tid lid se evs pe with ⟨h1, h2⟩ | h1
    · intro hOp; rw [h2]; exact hInv (h1 ▸ hOp)
    · intro hOp; rw [hOp] at h1; cases h1
  | openEvt now m ce ee ae =>
    simp only [commStep]
    rcases handleOpen_state s now m ce ee ae with h | h | ⟨cid, hcid, hOp2, hCid⟩
    · simpa [h] using hInv
    · intro hOp; rw [h] at hOp; cases hOp
    · intro _; rw [hCid]
      intro hemp
      exact hop (by simpa [opOpenCommId, hemp] using hcid)
  | msgEvt now m =>
    simp only [commStep]
    have h := handleMsg_fields s now m
    intro hOp; rw [h.1] at hOp
    rw [h.2.1]; exact hInv hOp
  | closeEvt re =>
    simp only [commStep]
    rcases close_state s re with h | h
    · simpa [h] using hInv
    · intro hOp; rw [h] at hOp; cases hOp
  | heartbeat t lid se evs =>
    simp only [commStep, CommState.SendHeartbeatAndWait]
    have h := sendHeartbeat_fields s t lid se evs
    intro hOp; rw [h.1] at hOp
    rw [h.2.1]; exact hInv hOp

/-- C4 counterexample: an open event whose `comm_id` field is present but
equal to the empty string is accepted by `HandleOpen` from the freshly
created state, leaving `Opened = true` while `CommId = ""` — the claimed
invariant `opened → channelId ≠ ""` is violated after this single public
operation. -/
theorem openedInv_counterexample :
    ¬ OpenedInv (commRun CommState.new
      [CommOp.openEvt 5 ⟨some openContentEmpty⟩ none none none]) :=
  fun inv => inv rfl rfl

/-- C4 (amended): starting from the freshly created state, the invariant
`opened == true → channelId ≠ ""` holds after every sequence of public
CommChannel operations in which no open event carries an empty `comm_id`
string (the unamended claim fails exactly on such open events, which the
code accepts verbatim). -/
theorem openedInv_traces (ops : List CommOp)
    (h : ∀ op ∈ ops, opOpenCommId op ≠ some "") :
    OpenedInv (commRun CommState.new ops) := by
  have general : ∀ (ops : List CommOp) (s : CommState), OpenedInv s →
      (∀ op ∈ ops, opOpenCommId op ≠ some "") → OpenedInv (commRun s ops) := by
    intro ops
    induction ops with
    | nil => intro s hs _; simpa [commRun] using hs
    | cons op rest ih =>
      intro s hs hops
      have h1 := openedInv_step s op hs (hops op (List.mem_cons_self op rest))
      have := ih (commStep s op) h1 (fun o ho => hops o (List.mem_cons_of_mem op ho))
      simpa [commRun] using this
  exact general ops CommState.new (fun h' => absurd h' (by simp [CommState.new])) h

theorem openedInv_traces_witness :
    (∀ op ∈ [CommOp.openEvt 5 ⟨some openContentAbc⟩ none none none,
             CommOp.msgEvt 6 ⟨some foreignPongContent⟩,
             CommOp.closeEvt none],
      opOpenCommId op ≠ some "") ∧
    OpenedInv (commRun CommState.new
      [CommOp.openEvt 5 ⟨some openContentAbc⟩ none none none,
       CommOp.msgEvt 6 ⟨some foreignPongContent⟩,
       CommOp.closeEvt none]) := by
  have hops : ∀ op ∈ [CommOp.openEvt 5 ⟨some openContentAbc⟩ none none none,
      CommOp.msgEvt 6 ⟨some foreignPongContent⟩, CommOp.closeEvt none],
      opOpenCommId op ≠ some "" := by
    intro op hop
    rcases hop with _ | ⟨_, hop⟩
    · intro hc
      have : some "abc" = some "" := hc
      simp at this
    · rcases hop with _ | ⟨_, hop⟩
      · intro hc; simp [opOpenCommId] at hc
      · rcases hop with _ | ⟨_, hop⟩
        · intro hc; simp [opOpenCommId] at hc
        · cases hop
  exact ⟨hops, openedInv_traces _ hops⟩

/-- C5: While less than 1 second has elapsed since `LastMsgTime`, two
consecutive `InstallJavascript` ("EnsureInstalled") calls (the first
with a successful publish) perform the bootstrap publish at most once;
and on an already-installed state a call within the threshold is a
no-op returning the state unchanged with no effects and no error. -/
theorem install_twice_publishes_at_most_once (s : CommState) (now1 now2 : Nat)
    (tid1 tid2 : String) (lid1 lid2 : Nat) (se1 se2 : Option GoError)
    (evs1 evs2 : List ProbeEvent) (pe2 : Option GoError)
    (h12 : now1 ≤ now2)
    (hfresh : now2 - s.LastMsgTime < HeartbeatRequestThreshold) :
    countPublishJs ((s.InstallJavascript now1 tid1 lid1 se1 evs1 none).1.effects ++
      (((s.InstallJavascript now1 tid1 lid1 se1 evs1 none).1.state.InstallJavascript
         now2 tid2 lid2 se2 evs2 pe2).1.effects)) ≤ 1 ∧
    (∀ (s' : CommState) (now' : Nat) (tid' : String) (lid' : Nat)
        (se' : Option GoError) (evs' : List ProbeEvent) (pe' : Option GoError),
      s'.IsWebSocketInstalled = true →
      now' - s'.LastMsgTime ≤ HeartbeatRequestThreshold →
      s'.InstallJavascript now' tid' lid' se' evs' pe' =
        ({ state := s', effects := [], err := none }, true)) := by
  have noop : ∀ (s' : CommState) (now' : Nat) (tid' : String) (lid' : Nat)
      (se' : Option GoError) (evs' : List ProbeEvent) (pe' : Option GoError),
      s'.IsWebSocketInstalled = true →
      now' - s'.LastMsgTime ≤ HeartbeatRequestThreshold →
      s'.InstallJavascript now' tid' lid' se' evs' pe' =
        ({ state := s', effects := [], err := none }, true) := by
    intro s' now' tid' lid' se' evs' pe' hI hT
    unfold CommState.InstallJavascript
    rw [if_pos hI, if_pos hT]
  refine ⟨?_, noop⟩
  by_cases hI : s.IsWebSocketInstalled = true
  · have hT1 : now1 - s.LastMsgTime ≤ HeartbeatRequestThreshold :=
      le_trans (Nat.sub_le_sub_right h12 _) (le_of_lt hfresh)
    rw [noop s now1 tid1 lid1 se1 evs1 none hI hT1]
    rw [noop s now2 tid2 lid2 se2 evs2 pe2 hI (le_of_lt hfresh)]
    simp [countPublishJs]
  · have h1 : (s.InstallJavascript now1 tid1 lid1 se1 evs1 none).1 =
        { state := { s with TransientDisplayId := tid1, IsWebSocketInstalled := true }
          effects := [Effect.publishJavascript tid1]
          err := none } := by
      unfold CommState.InstallJavascript
      rw [if_neg hI]
      rfl
    rw [h1]
    rw [noop { s with TransientDisplayId := tid1, IsWebSocketInstalled := true }
      now2 tid2 lid2 se2 evs2 pe2 rfl (le_of_lt hfresh)]
    simp [countPublishJs]

theorem install_twice_publishes_at_most_once_witness :
    100 ≤ 150 ∧
    150 - ({ CommState.new with LastMsgTime := 100 } : CommState).LastMsgTime
      < HeartbeatRequestThreshold ∧
    countPublishJs
      ((({ CommState.new with LastMsgTime := 100 } : CommState).InstallJavascript
          100 "t1" 1 none [] none).1.effects ++
       (((({ CommState.new with LastMsgTime := 100 } : CommState).InstallJavascript
          100 "t1" 1 none [] none).1.state.InstallJavascript
          150 "t2" 2 none [] none).1.effects)) ≤ 1 := by
  refine ⟨by decide, by decide, ?_⟩
  exact (install_twice_publishes_at_most_once _ 100 150 "t1" "t2" 1 2 none none
    [] [] none (by decide) (by decide)).1

/-- Unfolding of `firstTrig` on a cons. -/
theorem firstTrig_cons (lid : Nat) (s : CommState) (e : ProbeEvent)
    (rest : List ProbeEvent) :
    firstTrig lid s (e :: rest) =
      match eventTrigger s lid e with
      | some v => some v
      | none => firstTrig lid (evStep s e) rest := rfl

/-- Unfolding of `evolveState` on a cons. -/
theorem evolveState_cons (s : CommState) (e : ProbeEvent) (rest : List ProbeEvent) :
    evolveState s (e :: rest) = evolveState (evStep s e) rest := rfl

/-- `firstTrig` looks at a prefix first: a trigger in `evs1` decides. -/
theorem firstTrig_append_some (lid : Nat) (evs1 evs2 : List ProbeEvent)
    (s : CommState) (v : Bool) (h : firstTrig lid s evs1 = some v) :
    firstTrig lid s (evs1 ++ evs2) = some v := by
  induction evs1 generalizing s with
  | nil => simp [firstTrig] at h
  | cons e rest ih =>
    rw [List.cons_append, firstTrig_cons]
    rw [firstTrig_cons] at h
    rcases he : eventTrigger s lid e with _ | w
    · rw [he] at h
      simp only at h ⊢
      exact ih (evStep s e) h
    · rw [he] at h
      simpa using h

/-- With no trigger in the prefix, `firstTrig` continues on the evolved
state. -/
theorem firstTrig_append_none (lid : Nat) (evs1 evs2 : List ProbeEvent)
    (s : CommState) (h : firstTrig lid s evs1 = none) :
    firstTrig lid s (evs1 ++ evs2) = firstTrig lid (evolveState s evs1) evs2 := by
  induction evs1 generalizing s with
  | nil => simp [evolveState]
  | cons e rest ih =>
    rw [List.cons_append, firstTrig_cons, evolveState_cons]
    rw [firstTrig_cons] at h
    rcases he : eventTrigger s lid e with _ | w
    · rw [he] at h
      simp only at h ⊢
      exact ih (evStep s e) h
    · rw [he] at h
      simp at h

/-- An inbound message delivers `true` to the outstanding latch exactly
when `HandleMsg` routes it to the pong handler: matching `comm_id` and a
heartbeat address (`#heartbeat/pong` or `#heartbeat/ping`). -/
theorem eventTrigger_inbound_iff (s : CommState) (lid now : Nat) (m : Message)
    (h : s.HeartbeatPongLatch = some lid) :
    eventTrigger s lid (.inbound now m) = some true ↔ routesToPong s m = true := by
  unfold eventTrigger routesToPong CommState.HandleMsg handleHeartbeatPongLocked
  rcases m with ⟨_ | content⟩
  · simp
  · simp only
    rcases getFromJsonString content "comm_id" with _ | cid
    · simp
    · simp only
      by_cases hne : cid ≠ s.CommId
      · simp [hne]
      · simp only [hne, ite_false, if_false]
        rcases getFromJsonString content "data/address" with _ | addr
        · simp
        · simp only
          by_cases h1 : addr = HeartbeatPongAddress
          · simp [h1, h]
          · by_cases h2 : addr = HeartbeatPingAddress
            · simp [h1, h2, h]
            · simp [h1, h2]

/-- The timer goroutine of the outstanding latch delivers `false`. -/
theorem eventTrigger_timer (s : CommState) (lid : Nat) :
    eventTrigger s lid (.timerFire lid) = some false := by
  simp [eventTrigger]

/-- A freshly started probe resolves to the first trigger among the wait
events. -/
theorem sendHeartbeat_resolved (s : CommState) (t lid : Nat) (evs : List ProbeEvent)
    (h0 : s.HeartbeatPongLatch = none) :
    (sendHeartbeatPingLocked s t lid none evs).resolved =
      firstTrig lid { s with HeartbeatPongLatch := some lid } evs := by
  unfold sendHeartbeatPingLocked
  rw [h0]
  simp only
  rcases hf : firstTrig lid { s with HeartbeatPongLatch := some lid } evs with _ | v <;>
    simp [hf]

/-- Once a freshly started probe has resolved, the latch field is `nil`
again in the state the call returns. -/
theorem sendHeartbeat_latch_cleared (s : CommState) (t lid : Nat)
    (evs : List ProbeEvent) (v : Bool) (h0 : s.HeartbeatPongLatch = none)
    (hres : (sendHeartbeatPingLocked s t lid none evs).resolved = some v) :
    (sendHeartbeatPingLocked s t lid none evs).state.HeartbeatPongLatch = none := by
  have hres' := hres
  rw [sendHeartbeat_resolved s t lid evs h0] at hres'
  unfold sendHeartbeatPingLocked
  rw [h0]
  simp only [hres']
  have hl := (evolveState_fields evs { s with HeartbeatPongLatch := some lid }).2.2.1
  simp [hl]

/-- C1: A heartbeat probe started by `SendHeartbeatAndWait` (the same
code path `EnsureInstalled` uses) resolves to `true` if a message routed
to the pong handler (matching `comm_id`, address the pong- or
ping-address) arrives before the timer, and to `false` if the timer
fires first; only the first trigger is honored — later events do not
alter the result — and the latch field (`pendingHeartbeat`) is `nil`
again once the waiting call returns. -/
theorem heartbeat_probe_single_resolution (s : CommState) (timeout lid : Nat)
    (h0 : s.HeartbeatPongLatch = none) :
    (∀ (pre post : List ProbeEvent) (now : Nat) (m : Message),
      firstTrig lid { s with HeartbeatPongLatch := some lid } pre = none →
      routesToPong (evolveState { s with HeartbeatPongLatch := some lid } pre) m = true →
      (s.SendHeartbeatAndWait timeout lid none
        (pre ++ ProbeEvent.inbound now m :: post)).resolved = some true) ∧
    (∀ (pre post : List ProbeEvent),
      firstTrig lid { s with HeartbeatPongLatch := some lid } pre = none →
      (s.SendHeartbeatAndWait timeout lid none
        (pre ++ ProbeEvent.timerFire lid :: post)).resolved = some false) ∧
    (∀ (evs more : List ProbeEvent) (v : Bool),
      (s.SendHeartbeatAndWait timeout lid none evs).resolved = some v →
      (s.SendHeartbeatAndWait timeout lid none (evs ++ more)).resolved = some v) ∧
    (∀ (evs : List ProbeEvent) (v : Bool),
      (s.SendHeartbeatAndWait timeout lid none evs).resolved = some v →
      (s.SendHeartbeatAndWait timeout lid none evs).state.HeartbeatPongLatch = none) := by
  refine ⟨?_, ?_, ?_, ?_⟩
  · intro pre post now m hpre hroute
    rw [CommState.SendHeartbeatAndWait, sendHeartbeat_resolved s timeout lid _ h0]
    rw [firstTrig_append_none lid pre _ _ hpre, firstTrig_cons]
    have hlatch :=
      (evolveState_fields pre { s with HeartbeatPongLatch := some lid }).2.2.1
    have := (eventTrigger_inbound_iff
      (evolveState { s with HeartbeatPongLatch := some lid } pre) lid now m
      (by simpa using hlatch)).2 hroute
    rw [this]
  · intro pre post hpre
    rw [CommState.SendHeartbeatAndWait, sendHeartbeat_resolved s timeout lid _ h0]
    rw [firstTrig_append_none lid pre _ _ hpre, firstTrig_cons, eventTrigger_timer]
  · intro evs more v hv
    rw [CommState.SendHeartbeatAndWait, sendHeartbeat_resolved s timeout lid _ h0] at hv ⊢
    exact firstTrig_append_some lid evs more _ v hv
  · intro evs v hv
    rw [CommState.SendHeartbeatAndWait] at hv ⊢
    exact sendHeartbeat_latch_cleared s timeout lid evs v h0 hv

theorem heartbeat_probe_single_resolution_witness :
    openAbcState.HeartbeatPongLatch = none ∧
    (openAbcState.SendHeartbeatAndWait 500 1 none
      [ProbeEvent.inbound 7 ⟨some abcPongContent⟩, ProbeEvent.timerFire 1]).resolved
      = some true ∧
    (openAbcState.SendHeartbeatAndWait 500 1 none [ProbeEvent.timerFire 1]).resolved
      = some false :=
  ⟨rfl,
   (heartbeat_probe_single_resolution openAbcState 500 1 rfl).1
     [] [ProbeEvent.timerFire 1] 7 ⟨some abcPongContent⟩ rfl rfl,
   (heartbeat_probe_single_resolution openAbcState 500 1 rfl).2.1 [] [] rfl⟩

/-- C9: When a probe is already outstanding, `SendHeartbeatAndWait` joins
it: no second ping is published and no second timer is started (no
effects at all), no error is returned, the call resolves to the
outstanding probe's first trigger, and the joining caller's
timeout/latch-id/send-outcome arguments are irrelevant — any two joiners
observe the same resolution. -/
theorem heartbeat_join_reuses_probe (s : CommState) (lid : Nat)
    (h : s.HeartbeatPongLatch = some lid) (t t2 lid' lid2 : Nat)
    (se se2 : Option GoError) (evs : List ProbeEvent) :
    (s.SendHeartbeatAndWait t lid' se evs).effects = [] ∧
    (s.SendHeartbeatAndWait t lid' se evs).err = none ∧
    (s.SendHeartbeatAndWait t lid' se evs).resolved = firstTrig lid s evs ∧
    s.SendHeartbeatAndWait t lid' se evs = s.SendHeartbeatAndWait t2 lid2 se2 evs := by
  unfold CommState.SendHeartbeatAndWait sendHeartbeatPingLocked
  rw [h]
  rcases hf : firstTrig lid s evs with _ | v <;> simp [hf]

theorem heartbeat_join_reuses_probe_witness :
    openWithLatchState.HeartbeatPongLatch = some 7 ∧
    (openWithLatchState.SendHeartbeatAndWait 500 8 none
      [ProbeEvent.timerFire 7]).effects = [] ∧
    (openWithLatchState.SendHeartbeatAndWait 500 8 none
      [ProbeEvent.timerFire 7]).resolved = some false ∧
    openWithLatchState.SendHeartbeatAndWait 500 8 none [ProbeEvent.timerFire 7]
      = openWithLatchState.SendHeartbeatAndWait 9999 11 (some "boom")
          [ProbeEvent.timerFire 7] :=
  ⟨rfl,
   (heartbeat_join_reuses_probe openWithLatchState 7 rfl 500 9999 8 11 none
     (some "boom") [ProbeEvent.timerFire 7]).1,
   ((heartbeat_join_reuses_probe openWithLatchState 7 rfl 500 9999 8 11 none
     (some "boom") [ProbeEvent.timerFire 7]).2.2.1).trans rfl,
   (heartbeat_join_reuses_probe openWithLatchState 7 rfl 500 9999 8 11 none
     (some "boom") [ProbeEvent.timerFire 7]).2.2.2⟩

/-- One scheduled step preserves the pipe-teardown invariant. -/
theorem pInv_step (w : PipeWorld) (mv : PMove) (h : pInv w) : pInv (pStep w mv) := by
  obtain ⟨h1, h2, h3, h4⟩ := h
  cases mv with
  | fireDone => exact ⟨h1, h2, fun _ => rfl, fun _ => rfl⟩
  | childAttach => exact ⟨h1, h2, h3, h4⟩
  | stepC =>
    rcases hc : w.c with _ | _ | _ | _ | _ | _ | _ <;>
      simp only [pStep, cStep, hc, recordRemove] <;>
      rw [hc] at h1 h3
    · -- cWaitDone
      split_ifs with hd
      · exact ⟨h1, h2, fun _ => hd, h4⟩
      · exact ⟨hc ▸ h1, h2, hc ▸ h3, h4⟩
    · -- cLock
      split_ifs with hm
      · exact ⟨h1, h2, fun _ => h3 (by simp), h4⟩
      · exact ⟨hc ▸ h1, h2, hc ▸ h3, h4⟩
    · -- cCheckFlag
      split_ifs with hf <;>
        exact ⟨h1, h2, fun _ => h3 (by simp), h4⟩
    · -- cThrowaway
      split_ifs with hr
      · exact ⟨h1, h2, fun _ => h3 (by simp), h4⟩
      · exact ⟨hc ▸ h1, h2, hc ▸ h3, h4⟩
    · -- cUnlock
      exact ⟨h1, h2, fun _ => h3 (by simp), h4⟩
    · -- cRemove
      have hd : w.done = true := h3 (by simp)
      refine ⟨?_, ?_, fun _ => hd, h4⟩
      · simp only [cContrib] at h1 ⊢
        simp at h1
        simp
        omega
      · rw [hd]; simpa using h2
    · -- cDone
      exact ⟨hc ▸ h1, h2, hc ▸ h3, h4⟩
  | stepR =>
    rcases hr : w.r with _ | _ | _ | _ | _ | _ | _ | _ | _ | _ <;>
      simp only [pStep, rStep, hr, recordRemove] <;>
      rw [hr] at h1 h4
    · -- rCheckDone
      split_ifs with he <;>
        exact ⟨by simpa [rContrib] using h1, h2, h3, by intro hx; rcases hx with hx | hx | hx | hx <;> cases hx⟩
    · -- rOpen
      split_ifs with ho
      · exact ⟨by simpa [rContrib] using h1, h2, h3,
          by intro hx; rcases hx with hx | hx | hx | hx <;> cases hx⟩
      · exact ⟨hr ▸ h1, h2, h3, hr ▸ h4⟩
    · -- rLock
      split_ifs with hm
      · exact ⟨by simpa [rContrib] using h1, h2, h3,
          by intro hx; rcases hx with hx | hx | hx | hx <;> cases hx⟩
      · exact ⟨hr ▸ h1, h2, h3, hr ▸ h4⟩
    · -- rSetFlag
      exact ⟨by simpa [rContrib] using h1, h2, h3,
        by intro hx; rcases hx with hx | hx | hx | hx <;> cases hx⟩
    · -- rWaitDone
      split_ifs with hd
      · exact ⟨by simpa [rContrib] using h1, h2, h3, fun _ => hd⟩
      · exact ⟨hr ▸ h1, h2, h3, hr ▸ h4⟩
    · -- rClose
      have hd : w.done = true := h4 (by simp)
      exact ⟨by simpa [rContrib] using h1, h2, h3, fun _ => hd⟩
    · -- rRemove
      have hd : w.done = true := h4 (by simp)
      refine ⟨?_, ?_, h3, fun _ => hd⟩
      · simp only [rContrib] at h1 ⊢
        simp at h1
        simp
        omega
      · rw [hd]; simpa using h2
    · -- rRet
      have hd : w.done = true := h4 (by simp)
      exact ⟨by simpa [rContrib] using h1, h2, h3, fun _ => hd⟩
    · -- rDoneEarly
      exact ⟨hr ▸ h1, h2, h3, hr ▸ h4⟩
    · -- rDoneFull
      exact ⟨hr ▸ h1, h2, h3, hr ▸ h4⟩

/-- C3 counterexample: in the schedule where the executed program opens
the pipe and the reader goroutine finishes before the cleanup goroutine
runs, `os.Remove(readerPath)` is executed twice (once by each
goroutine), refuting "removed exactly once / removal is never performed
twice". -/
theorem fifo_double_remove_counterexample :
    (pRun (pipeInit false) doubleRemoveSchedule).removeCount = 2 ∧
    (pRun (pipeInit false) doubleRemoveSchedule).c = CProc.cDone ∧
    (pRun (pipeInit false) doubleRemoveSchedule).r = RProc.rDoneFull := by
  refine ⟨?_, ?_, ?_⟩ <;> decide

/-- C3 (amended): in every interleaving of the cleanup and reader
goroutines, `os.Remove(readerPath)` is executed at most twice, never
before `doneSignal` has fired, and at least once as soon as the cleanup
goroutine has run to completion (the unamended "exactly once, after the
decode loop exits" fails: when the pipe was opened both goroutines
remove it, the second removal being a tolerated no-op, and the cleanup
goroutine does not wait for the decode loop). -/
theorem fifo_remove_bounds (early : Bool) (sched : List PMove) :
    (pRun (pipeInit early) sched).removeCount ≤ 2 ∧
    (pRun (pipeInit early) sched).removesBeforeDone = 0 ∧
    ((pRun (pipeInit early) sched).c = CProc.cDone →
      1 ≤ (pRun (pipeInit early) sched).removeCount) := by
  have run : ∀ (sched : List PMove) (w : PipeWorld), pInv w → pInv (pRun w sched) := by
    intro sched
    induction sched with
    | nil => intro w h; exact h
    | cons m rest ih => intro w h; exact ih (pStep w m) (pInv_step w m h)
  have hinv : pInv (pRun (pipeInit early) sched) := by
    refine run sched (pipeInit early) ⟨rfl, rfl, ?_, ?_⟩
    · intro hx; exact absurd rfl hx
    · intro hx; rcases hx with hx | hx | hx | hx <;> cases hx
  obtain ⟨h1, h2, h3, h4⟩ := hinv
  have hcc : ∀ c, cContrib c ≤ 1 := by intro c; unfold cContrib; split <;> omega
  have hrc : ∀ r, rContrib r ≤ 1 := by intro r; unfold rContrib; split <;> omega
  refine ⟨?_, h2, ?_⟩
  · rw [h1]
    have := hcc (pRun (pipeInit early) sched).c
    have := hrc (pRun (pipeInit early) sched).r
    omega
  · intro hc
    rw [h1, hc]
    simp [cContrib]

theorem fifo_remove_bounds_witness :
    (pRun (pipeInit false) doubleRemoveSchedule).c = CProc.cDone ∧
    1 ≤ (pRun (pipeInit false) doubleRemoveSchedule).removeCount ∧
    (pRun (pipeInit false) doubleRemoveSchedule).removeCount ≤ 2 ∧
    (pRun (pipeInit false) doubleRemoveSchedule).removesBeforeDone = 0 :=
  ⟨by decide,
   (fifo_remove_bounds false doubleRemoveSchedule).2.2 (by decide),
   (fifo_remove_bounds false doubleRemoveSchedule).1,
   (fifo_remove_bounds false doubleRemoveSchedule).2.1⟩
